import Mathlib

/-!
Verification development for the MIST repository.

The only source file is src/ui/src-tauri/src/main.rs:

  fn main() {
      tauri::Builder::default()
          .run(tauri::generate_context!())
          .expect("error while running tauri application");
  }

Part 1 embeds this entry point shallowly: the external tauri runtime is a
parameter (a `WindowingEnv` saying whether native window initialization
succeeds), `main` is the composition of the builder's `run` call with
Rust's `Result::expect`, and the observable behaviour is an effect trace
plus a process outcome.

Part 2 models, from the specification, the components the spec designs but
the source does not yet implement: the Shell Bootstrapper state machine and
the Core Process Supervisor.
-/

/- ================= Part 1: embedding of main.rs ================= -/

/-- Error produced by the external windowing runtime when the native
window or event loop cannot be created. -/
inductive TauriError
  | runtimeInit
  deriving DecidableEq

/-- Observable side effects the entry point could perform. The trace of
`main` is checked against this alphabet: in particular the constructors
for child-process management are available but never emitted. -/
inductive Effect
  | constructRuntime
  | runEventLoop
  | spawnChildProcess
  | monitorChildProcess
  | killChildProcess
  | teardownResource
  | readEnvVar (name : String)
  | readCliArg (index : Nat)
  deriving DecidableEq

/-- Behaviour of the external windowing system: whether native
initialization succeeds when `tauri::Builder::run` is invoked. -/
structure WindowingEnv where
  initSucceeds : Bool
  deriving DecidableEq

/-- The `tauri::Builder::default().run(ctx)` call: succeeds when the
windowing system initializes, otherwise returns a runtime-init error
(the library call returns `Result<(), tauri::Error>`). -/
def tauriBuilderRun (env : WindowingEnv) : Except TauriError Unit :=
  if env.initSucceeds then Except.ok () else Except.error TauriError.runtimeInit

/-- Outcome of the Rust process running `main`: either `main` returns
normally (exit status 0) or it panics with a message (non-zero status). -/
inductive MainOutcome
  | exitSuccess
  | panicked (msg : String)
  deriving DecidableEq

/-- The literal message passed to `expect` in main.rs line 11. -/
def expectMessage : String := "error while running tauri application"

/-- Rust's `Result::expect(msg)`: returns the value on `Ok`, panics with
`msg` on `Err`. -/
def rustExpect (r : Except TauriError Unit) (msg : String) : MainOutcome :=
  match r with
  | Except.ok _ => MainOutcome.exitSuccess
  | Except.error _ => MainOutcome.panicked msg

/-- Process outcome of `fn main()`: run the builder, then `expect`. -/
def mainOutcome (env : WindowingEnv) : MainOutcome :=
  rustExpect (tauriBuilderRun env) expectMessage

/-- Effect trace of `fn main()`: it constructs the windowing runtime and
enters the event loop, and does nothing else — on an `Err` from `run` the
`expect` panics immediately, so no teardown or process-management effect
follows on any path. -/
def mainTrace (_env : WindowingEnv) : List Effect :=
  [Effect.constructRuntime, Effect.runEventLoop]

/-- Exit status of the process: 0 on normal return, 101 (the Rust panic
status) when `main` panicked. -/
def exitCode : MainOutcome → Nat
  | MainOutcome.exitSuccess => 0
  | MainOutcome.panicked _ => 101

/-- `fn main()` as seen by the operating system: it receives the
environment variables and command-line arguments of the process, but the
source never reads either, so the result depends only on the windowing
environment. -/
def mistMain (_envVars : List (String × String)) (_args : List String)
    (env : WindowingEnv) : List Effect × MainOutcome :=
  (mainTrace env, mainOutcome env)

/- ================= Part 1: theorems C1, C3, C9, C10 ================= -/

/-- C1: the entry point does nothing but construct the windowing runtime
and start it; its trace contains no spawn, monitor, or kill of a child
process, so the core-process lifecycle management mentioned in the
comments is not implemented by any operation of the program. -/
theorem main_constructs_and_runs_only (env : WindowingEnv) :
    mainTrace env = [Effect.constructRuntime, Effect.runEventLoop] ∧
    Effect.spawnChildProcess ∉ mainTrace env ∧
    Effect.monitorChildProcess ∉ mainTrace env ∧
    Effect.killChildProcess ∉ mainTrace env := by
  refine ⟨rfl, ?_, ?_, ?_⟩ <;> simp [mainTrace]

/-- Witness for C1 at a concrete windowing environment. -/
theorem main_constructs_and_runs_only_witness :
    mainTrace ⟨true⟩ = [Effect.constructRuntime, Effect.runEventLoop] ∧
    Effect.spawnChildProcess ∉ mainTrace ⟨true⟩ ∧
    Effect.monitorChildProcess ∉ mainTrace ⟨true⟩ ∧
    Effect.killChildProcess ∉ mainTrace ⟨true⟩ :=
  main_constructs_and_runs_only ⟨true⟩

/-- C3: if the windowing system cannot be initialized, the run call fails
with the runtime-init error, and this is fatal: the process exits with a
non-zero status, and the trace shows a single construction attempt with no
retry (no recovery attempted). -/
theorem runtime_init_failure_is_fatal (env : WindowingEnv)
    (h : env.initSucceeds = false) :
    tauriBuilderRun env = Except.error TauriError.runtimeInit ∧
    exitCode (mainOutcome env) ≠ 0 ∧
    List.count Effect.constructRuntime (mainTrace env) = 1 := by
  refine ⟨?_, ?_, rfl⟩
  · simp [tauriBuilderRun, h]
  · simp [mainOutcome, rustExpect, tauriBuilderRun, h, exitCode]

/-- Witness for C3: a windowing environment whose initialization fails. -/
theorem runtime_init_failure_is_fatal_witness :
    tauriBuilderRun ⟨false⟩ = Except.error TauriError.runtimeInit ∧
    exitCode (mainOutcome ⟨false⟩) ≠ 0 ∧
    List.count Effect.constructRuntime (mainTrace ⟨false⟩) = 1 :=
  runtime_init_failure_is_fatal ⟨false⟩ rfl

/-- C9: the behaviour of `main` depends on no environment variables and no
command-line arguments — the trace never reads either, and any two runs
under the same windowing environment produce identical effects and
outcome. -/
theorem main_ignores_env_and_args
    (ev₁ ev₂ : List (String × String)) (a₁ a₂ : List String)
    (env : WindowingEnv) :
    mistMain ev₁ a₁ env = mistMain ev₂ a₂ env ∧
    (∀ n, Effect.readEnvVar n ∉ mainTrace env) ∧
    (∀ i, Effect.readCliArg i ∉ mainTrace env) := by
  refine ⟨rfl, ?_, ?_⟩ <;> intro x <;> simp [mainTrace]

/-- Witness for C9: two concrete runs with different environment variables
and arguments coincide. -/
theorem main_ignores_env_and_args_witness :
    mistMain [("MIST_CORE", "/usr/bin/core")] ["--verbose"] ⟨true⟩ =
      mistMain [] [] ⟨true⟩ ∧
    (∀ n, Effect.readEnvVar n ∉ mainTrace ⟨true⟩) ∧
    (∀ i, Effect.readCliArg i ∉ mainTrace ⟨true⟩) :=
  main_ignores_env_and_args [("MIST_CORE", "/usr/bin/core")] [] ["--verbose"] [] ⟨true⟩

/-- C10: whenever the tauri run call returns an error, `main` panics via
`expect` with the message "error while running tauri application" and
performs no teardown; and on every path `main` either returns unit or
panics — it never returns an error value to its caller. -/
theorem main_panics_on_run_error (env : WindowingEnv) :
    (∀ e, tauriBuilderRun env = Except.error e →
      mainOutcome env = MainOutcome.panicked expectMessage ∧
      Effect.teardownResource ∉ mainTrace env) ∧
    (mainOutcome env = MainOutcome.exitSuccess ∨
      mainOutcome env = MainOutcome.panicked expectMessage) := by
  constructor
  · intro e he
    constructor
    · simp [mainOutcome, rustExpect, he]
    · simp [mainTrace]
  · unfold mainOutcome rustExpect
    cases tauriBuilderRun env with
    | ok _ => exact Or.inl rfl
    | error _ => exact Or.inr rfl

/-- Witness for C10: at a failing windowing environment, `main` panics
with the exact expect message. -/
theorem main_panics_on_run_error_witness :
    mainOutcome ⟨false⟩ = MainOutcome.panicked expectMessage ∧
    Effect.teardownResource ∉ mainTrace ⟨false⟩ :=
  (main_panics_on_run_error ⟨false⟩).1 TauriError.runtimeInit rfl

/- ============ Part 2: spec-modelled Shell Bootstrapper ============ -/

/-- Modelled from the spec: the Shell Bootstrapper's lifecycle states
(spec section 4.1); the source does not implement the bootstrapper beyond
the single run call, so the state machine is taken from the spec's words. -/
inductive ShellState
  | uninitialized
  | initialized
  | running
  | terminating
  | terminated
  deriving DecidableEq

/-- Modelled from the spec: the one-directional transitions
`Uninitialized → Initialized → Running → Terminating → Terminated`. -/
inductive ShellStep : ShellState → ShellState → Prop
  | doInit : ShellStep ShellState.uninitialized ShellState.initialized
  | doRun : ShellStep ShellState.initialized ShellState.running
  | beginTerminate : ShellStep ShellState.running ShellState.terminating
  | finishTerminate : ShellStep ShellState.terminating ShellState.terminated

/-- Multi-step reachability in the Shell Bootstrapper state machine. -/
inductive ShellReach : ShellState → ShellState → Prop
  | refl (s : ShellState) : ShellReach s s
  | tail {s t u : ShellState} : ShellReach s t → ShellStep t u → ShellReach s u

/-- Position of a shell state along the one-directional chain. -/
def shellRank : ShellState → Nat
  | ShellState.uninitialized => 0
  | ShellState.initialized => 1
  | ShellState.running => 2
  | ShellState.terminating => 3
  | ShellState.terminated => 4

/-- Every single transition strictly increases the rank. -/
theorem shellStep_rank_lt {s t : ShellState} (h : ShellStep s t) :
    shellRank s < shellRank t := by
  cases h <;> simp [shellRank]

/-- Reachability never decreases the rank. -/
theorem shellReach_rank_le {s t : ShellState} (h : ShellReach s t) :
    shellRank s ≤ shellRank t := by
  induction h with
  | refl => exact Nat.le_refl _
  | tail _ hstep ih => exact Nat.le_of_lt (Nat.lt_of_le_of_lt ih (shellStep_rank_lt hstep))

/- ============ Part 2: spec-modelled Core Process Supervisor ============ -/

/-- Modelled from the spec: the restart policy `none | on-crash | always`
(spec section 3, SupervisorConfig). -/
inductive RestartPolicy
  | never
  | onCrash
  | always
  deriving DecidableEq

/-- Modelled from the spec: the Supervisor configuration
`{enabled, command, restart_policy, startup_timeout, shutdown_timeout}`. -/
structure SupervisorConfig where
  enabled : Bool
  command : String
  args : List String
  workingDir : String
  restartPolicy : RestartPolicy
  startupTimeout : Nat
  shutdownTimeout : Nat
  deriving DecidableEq

/-- Modelled from the spec: a SupervisedProcess — the spawned core with
its command, arguments, working directory, process identifier and
last-known exit status. -/
structure SupervisedProcess where
  command : String
  args : List String
  workingDir : String
  pid : Nat
  exitStatus : Option Int
  deriving DecidableEq

/-- Modelled from the spec: the Supervisor's coarse lifecycle state
(the transient Starting/Stopping phases happen inside the atomic start
and stop operations of this model). -/
inductive SupState
  | uninitialized
  | running
  | stopped
  deriving DecidableEq

/-- Modelled from the spec: lifecycle events the Supervisor emits to the
Shell Bootstrapper. -/
inductive LifecycleEvent
  | windowClosed
  | coreExited (status : Int)
  | coreSpawnFailed (reason : String)
  deriving DecidableEq

/-- OS-level actions the Supervisor performs; the claims inspect these
traces (no spawn when disabled, kill escalation on shutdown timeout, …). -/
inductive SupEffect
  | spawnProcess (cmd : String) (pid : Nat)
  | sendQuitSignal (pid : Nat)
  | killProcess (pid : Nat)
  | emitEvent (e : LifecycleEvent)
  deriving DecidableEq

/-- Response of the operating system and readiness probe to one spawn
attempt: a ready process with its pid, a launch failure, or a process
that never passes the readiness predicate within startup_timeout. -/
inductive SpawnOutcome
  | ready (pid : Nat)
  | executableNotFound
  | permissionDenied
  | neverReady
  deriving DecidableEq

/-- Modelled from the spec: `SpawnError` (ExecutableNotFound,
PermissionDenied, Timeout). -/
inductive SpawnError
  | executableNotFound
  | permissionDenied
  | timeout
  deriving DecidableEq

/-- Result of `start()`: "not managed" when disabled, refusal when a
process is already supervised (the single-writer lock forbids a duplicate
spawn), success, or a spawn error. -/
inductive StartResult
  | notManaged
  | alreadyRunning
  | startedOk (p : SupervisedProcess)
  | startFailed (e : SpawnError)
  deriving DecidableEq

/-- Modelled from the spec: the Supervisor owns the configuration, the
(at most one) live supervised process, its lifecycle state, and the count
of restarts already used by the on-crash cap. -/
structure Supervisor where
  config : SupervisorConfig
  procs : List SupervisedProcess
  state : SupState
  restartsUsed : Nat
  deriving DecidableEq

/-- A freshly constructed Supervisor: no process, uninitialized. -/
def Supervisor.init (cfg : SupervisorConfig) : Supervisor :=
  { config := cfg, procs := [], state := SupState.uninitialized, restartsUsed := 0 }

/-- Modelled from the spec: `start(config)` — a no-op returning
"not managed" when `enabled` is false; refuses a duplicate spawn while a
process is live; otherwise launches the command, and on a readiness
timeout reclaims the half-started process so the Supervisor never holds a
process it has not confirmed running. -/
def Supervisor.start (s : Supervisor) (out : SpawnOutcome) :
    Supervisor × StartResult × List SupEffect :=
  if s.config.enabled = false then
    (s, StartResult.notManaged, [])
  else
    match s.procs with
    | _ :: _ => (s, StartResult.alreadyRunning, [])
    | [] =>
      match out with
      | SpawnOutcome.ready pid =>
        let p : SupervisedProcess :=
          { command := s.config.command, args := s.config.args,
            workingDir := s.config.workingDir, pid := pid, exitStatus := none }
        ({ s with procs := [p], state := SupState.running },
          StartResult.startedOk p,
          [SupEffect.spawnProcess s.config.command pid])
      | SpawnOutcome.executableNotFound =>
        ({ s with state := SupState.stopped },
          StartResult.startFailed SpawnError.executableNotFound,
          [SupEffect.emitEvent (LifecycleEvent.coreSpawnFailed "executable not found")])
      | SpawnOutcome.permissionDenied =>
        ({ s with state := SupState.stopped },
          StartResult.startFailed SpawnError.permissionDenied,
          [SupEffect.emitEvent (LifecycleEvent.coreSpawnFailed "permission denied")])
      | SpawnOutcome.neverReady =>
        ({ s with state := SupState.stopped },
          StartResult.startFailed SpawnError.timeout,
          [SupEffect.spawnProcess s.config.command 0, SupEffect.killProcess 0,
            SupEffect.emitEvent (LifecycleEvent.coreSpawnFailed "startup timeout")])

/-- Modelled from the spec: the internal result of the graceful-shutdown
wait inside `stop()` — either the core exited within shutdown_timeout or
the wait timed out; a timeout is handled inside `stop()` and never
propagated. -/
inductive ShutdownAttempt
  | gracefulExit
  | timedOut
  deriving DecidableEq

/-- Modelled from the spec: `stop(timeout)` — sends the graceful quit
signal, waits up to shutdown_timeout, escalates to a forceful kill on
timeout, reclaims the handle, and always ends in `Stopped`; it returns no
error (infallible from the caller's perspective). -/
def Supervisor.stop (s : Supervisor) (wait : ShutdownAttempt) :
    Supervisor × List SupEffect :=
  match s.procs with
  | [] => ({ s with state := SupState.stopped }, [])
  | p :: _ =>
    let effs :=
      match wait with
      | ShutdownAttempt.gracefulExit => [SupEffect.sendQuitSignal p.pid]
      | ShutdownAttempt.timedOut =>
        [SupEffect.sendQuitSignal p.pid, SupEffect.killProcess p.pid]
    ({ s with procs := [], state := SupState.stopped }, effs)

/-- Modelled from the spec: `on_unexpected_exit(status)` — the monitored
process exited without an explicit stop; the handle is reclaimed, a
CoreExited event is emitted, and the restart policy is applied (on-crash
respawns once per crash up to the cap; always respawns immediately). -/
def Supervisor.onUnexpectedExit (s : Supervisor) (status : Int)
    (respawn : SpawnOutcome) : Supervisor × List SupEffect :=
  match s.procs with
  | [] => (s, [])
  | _ :: _ =>
    let sDown := { s with procs := [], state := SupState.stopped }
    let exited := SupEffect.emitEvent (LifecycleEvent.coreExited status)
    match s.config.restartPolicy with
    | RestartPolicy.never => (sDown, [exited])
    | RestartPolicy.onCrash =>
      if s.restartsUsed < 1 then
        let r := Supervisor.start { sDown with restartsUsed := s.restartsUsed + 1 } respawn
        (r.1, exited :: r.2.2)
      else (sDown, [exited])
    | RestartPolicy.always =>
      let r := Supervisor.start sDown respawn
      (r.1, exited :: r.2.2)

/-- One external stimulus to the Supervisor: an explicit start call, an
explicit stop call, a non-blocking health-poll tick, or an observed
unexpected exit. -/
inductive SupEvent
  | startCall (out : SpawnOutcome)
  | stopCall (wait : ShutdownAttempt)
  | pollTick
  | unexpectedExit (status : Int) (respawn : SpawnOutcome)

/-- The Supervisor's reaction to one stimulus. -/
def Supervisor.step (s : Supervisor) : SupEvent → Supervisor × List SupEffect
  | SupEvent.startCall out => let r := s.start out; (r.1, r.2.2)
  | SupEvent.stopCall wait => s.stop wait
  | SupEvent.pollTick => (s, [])
  | SupEvent.unexpectedExit status respawn => s.onUnexpectedExit status respawn

/-- Supervisor states reachable from a fresh Supervisor by any sequence
of stimuli. -/
inductive SupReachable : Supervisor → Prop
  | init (cfg : SupervisorConfig) : SupReachable (Supervisor.init cfg)
  | step {s : Supervisor} (e : SupEvent) :
      SupReachable s → SupReachable (s.step e).1

/-- The invariant of spec section 3: at most one supervised process is
live; a held process handle is one confirmed running; the stopped state
never coexists with an unreclaimed handle; and while running, exactly one
process exists. -/
def SupInv (s : Supervisor) : Prop :=
  s.procs.length ≤ 1 ∧
  (s.procs ≠ [] → s.state = SupState.running) ∧
  (s.state = SupState.stopped → s.procs = []) ∧
  (s.state = SupState.running → s.procs.length = 1)

/- ============ Part 2: spec-modelled run loop (C2) ============ -/

/-- Events delivered by the windowing system to the event loop. -/
inductive WinEvent
  | userInput
  | redraw
  | closeRequested
  | termSignal
  deriving DecidableEq

/-- Whether an event ends the run loop: the user closing the window or a
termination signal. -/
def isExitEvent : WinEvent → Bool
  | WinEvent.closeRequested => true
  | WinEvent.termSignal => true
  | _ => false

/-- Teardown actions of the Shell Bootstrapper when `run()` returns. -/
inductive ShellEffect
  | signalSupervisorStop
  | releaseWindowResources
  deriving DecidableEq

/-- Modelled from the spec: `run()` — consumes the windowing event stream
and returns only when a close request or termination signal arrives; on
return it performs teardown, signalling the Supervisor to stop the core
(when one was started) before releasing the window resources. `none`
means the loop is still blocked (no exit event ever arrived). -/
def runShell (events : List WinEvent) (coreStarted : Bool) :
    Option (List ShellEffect) :=
  match events with
  | [] => none
  | e :: rest =>
    if isExitEvent e then
      some ((if coreStarted then [ShellEffect.signalSupervisorStop] else []) ++
        [ShellEffect.releaseWindowResources])
    else runShell rest coreStarted

/-- C2: `run()` does not return while no close request or termination
signal has arrived, and whenever it does return, some such event occurred
and the teardown signals the Supervisor to stop the core if one was
started. -/
theorem run_returns_only_on_close_and_tears_down
    (events : List WinEvent) (coreStarted : Bool) :
    ((∀ e ∈ events, isExitEvent e = false) → runShell events coreStarted = none) ∧
    (∀ effs, runShell events coreStarted = some effs →
      (∃ e ∈ events, isExitEvent e = true) ∧
      (coreStarted = true → ShellEffect.signalSupervisorStop ∈ effs)) := by
  induction events with
  | nil =>
    refine ⟨fun _ => rfl, fun effs h => ?_⟩
    simp [runShell] at h
  | cons e rest ih =>
    constructor
    · intro hall
      have he : isExitEvent e = false := hall e (List.mem_cons_self e rest)
      have hrest : ∀ x ∈ rest, isExitEvent x = false :=
        fun x hx => hall x (List.mem_cons_of_mem e hx)
      simpa [runShell, he] using ih.1 hrest
    · intro effs h
      by_cases hx : isExitEvent e = true
      · refine ⟨⟨e, List.mem_cons_self e rest, hx⟩, ?_⟩
        intro hc
        simp [runShell, hx, hc] at h
        simp [← h]
      · have hx' : isExitEvent e = false := by
          cases hxe : isExitEvent e
          · rfl
          · exact absurd hxe hx
        rw [runShell] at h
        rw [hx'] at h
        simp only [Bool.false_eq_true, if_false] at h
        rcases (ih.2 effs h) with ⟨⟨w, hw, hwx⟩, hsig⟩
        exact ⟨⟨w, List.mem_cons_of_mem e hw, hwx⟩, hsig⟩

/-- Witness for C2: a concrete event stream with one input event followed
by a close request, with the core started. -/
theorem run_returns_only_on_close_and_tears_down_witness :
    (∃ e ∈ [WinEvent.userInput, WinEvent.closeRequested], isExitEvent e = true) ∧
    ShellEffect.signalSupervisorStop ∈
      [ShellEffect.signalSupervisorStop, ShellEffect.releaseWindowResources] := by
  have h := (run_returns_only_on_close_and_tears_down
    [WinEvent.userInput, WinEvent.closeRequested] true).2
    [ShellEffect.signalSupervisorStop, ShellEffect.releaseWindowResources] rfl
  exact ⟨h.1, h.2 rfl⟩

/- ============ Part 2: theorems C4, C5, C6, C7, C8 ============ -/

/-- C8: once Terminating has begun, the only shell states reachable are
Terminating and Terminated — there is no path back to Running. -/
theorem no_return_to_running_after_terminating (t : ShellState)
    (h : ShellReach ShellState.terminating t) :
    t = ShellState.terminating ∨ t = ShellState.terminated := by
  have hr := shellReach_rank_le h
  cases t
  · exact absurd hr (by simp [shellRank])
  · exact absurd hr (by simp [shellRank])
  · exact absurd hr (by simp [shellRank])
  · exact Or.inl rfl
  · exact Or.inr rfl

/-- Witness for C8: from Terminating, finishing termination reaches
Terminated, which the theorem classifies. -/
theorem no_return_to_running_after_terminating_witness :
    ShellState.terminated = ShellState.terminating ∨
    ShellState.terminated = ShellState.terminated :=
  no_return_to_running_after_terminating ShellState.terminated
    (ShellReach.tail (ShellReach.refl ShellState.terminating)
      ShellStep.finishTerminate)

/-- C4: with `enabled = false`, `start()` is a no-op returning
"not managed": the Supervisor is unchanged and no spawn effect occurs. -/
theorem start_disabled_is_noop (s : Supervisor) (out : SpawnOutcome)
    (h : s.config.enabled = false) :
    s.start out = (s, StartResult.notManaged, []) ∧
    (∀ cmd pid, SupEffect.spawnProcess cmd pid ∉ (s.start out).2.2) := by
  have he : s.start out = (s, StartResult.notManaged, []) := by
    simp [Supervisor.start, h]
  refine ⟨he, ?_⟩
  intro cmd pid
  simp [he]

/-- Witness for C4: a concrete disabled Supervisor whose start returns
"not managed" with no effects. -/
theorem start_disabled_is_noop_witness :
    (Supervisor.init ⟨false, "core", [], ".", RestartPolicy.never, 5, 5⟩).start
      (SpawnOutcome.ready 99) =
      (Supervisor.init ⟨false, "core", [], ".", RestartPolicy.never, 5, 5⟩,
        StartResult.notManaged, []) ∧
    (∀ cmd pid, SupEffect.spawnProcess cmd pid ∉
      ((Supervisor.init ⟨false, "core", [], ".", RestartPolicy.never, 5, 5⟩).start
        (SpawnOutcome.ready 99)).2.2) :=
  start_disabled_is_noop _ (SpawnOutcome.ready 99) rfl

/-- The start operation preserves the one-process invariant. -/
theorem supInv_start (s : Supervisor) (out : SpawnOutcome) (h : SupInv s) :
    SupInv (s.start out).1 := by
  rcases s with ⟨⟨en, cmd, args, wd, rp, sut, sdt⟩, procs, st, ru⟩
  cases en <;> cases procs <;> cases out <;>
    simp_all [Supervisor.start, SupInv]

/-- The stop operation establishes the one-process invariant outright. -/
theorem supInv_stop (s : Supervisor) (wait : ShutdownAttempt) :
    SupInv (s.stop wait).1 := by
  rcases s with ⟨cfg, procs, st, ru⟩
  cases procs <;> cases wait <;> simp [Supervisor.stop, SupInv]

/-- Every Supervisor step preserves the one-process invariant. -/
theorem supInv_step (s : Supervisor) (e : SupEvent) (h : SupInv s) :
    SupInv (s.step e).1 := by
  cases e with
  | startCall out => exact supInv_start s out h
  | stopCall wait => exact supInv_stop s wait
  | pollTick => exact h
  | unexpectedExit status respawn =>
    rcases s with ⟨⟨en, cmd, args, wd, rp, sut, sdt⟩, procs, st, ru⟩
    cases procs with
    | nil => simpa [Supervisor.step, Supervisor.onUnexpectedExit] using h
    | cons p rest =>
      cases rp <;> cases en <;> cases respawn <;> rcases ru with _ | ru <;>
        simp_all [Supervisor.step, Supervisor.onUnexpectedExit,
          Supervisor.start, SupInv]

/-- C5: in every reachable Supervisor state, at most one supervised
process exists; a held handle is one confirmed running; the stopped state
holds no unreclaimed handle; and while running exactly one process
exists. -/
theorem supervisor_one_process_invariant (s : Supervisor)
    (h : SupReachable s) : SupInv s := by
  induction h with
  | init cfg => simp [Supervisor.init, SupInv]
  | step e _ ih => exact supInv_step _ e ih

/-- Witness for C5: the invariant at the concrete state reached by a
fresh Supervisor after one successful start. -/
theorem supervisor_one_process_invariant_witness :
    SupInv ((Supervisor.init
      ⟨true, "core", [], ".", RestartPolicy.never, 5, 5⟩).step
      (SupEvent.startCall (SpawnOutcome.ready 42))).1 :=
  supervisor_one_process_invariant _
    (SupReachable.step (SupEvent.startCall (SpawnOutcome.ready 42))
      (SupReachable.init ⟨true, "core", [], ".", RestartPolicy.never, 5, 5⟩))

/-- C6: `stop()` is idempotent — a second stop right after a first one
changes nothing, performs no kill and no quit signal, and (stop returning
no error by construction) cannot fail. -/
theorem stop_idempotent (s : Supervisor) (w w' : ShutdownAttempt) :
    ((s.stop w).1).stop w' = ((s.stop w).1, []) ∧
    (∀ pid, SupEffect.killProcess pid ∉ (((s.stop w).1).stop w').2) ∧
    (∀ pid, SupEffect.sendQuitSignal pid ∉ (((s.stop w).1).stop w').2) := by
  rcases s with ⟨cfg, procs, st, ru⟩
  cases procs <;> cases w <;> cases w' <;>
    simp [Supervisor.stop]

/-- Witness for C6: a running Supervisor with one process, stopped twice;
the second stop is a no-op with an empty effect list. -/
theorem stop_idempotent_witness :
    (((Supervisor.mk ⟨true, "core", [], ".", RestartPolicy.never, 5, 5⟩
        [⟨"core", [], ".", 7, none⟩] SupState.running 0).stop
        ShutdownAttempt.timedOut).1).stop ShutdownAttempt.timedOut =
      (((Supervisor.mk ⟨true, "core", [], ".", RestartPolicy.never, 5, 5⟩
        [⟨"core", [], ".", 7, none⟩] SupState.running 0).stop
        ShutdownAttempt.timedOut).1, []) :=
  (stop_idempotent _ ShutdownAttempt.timedOut ShutdownAttempt.timedOut).1

/-- C7: `stop()` is infallible from the caller's perspective — it always
leaves the Supervisor in the Stopped state with the handle reclaimed, and
when the graceful wait times out while a process is live it escalates to
a forceful kill internally instead of surfacing an error. -/
theorem stop_always_stops (s : Supervisor) (w : ShutdownAttempt) :
    ((s.stop w).1).state = SupState.stopped ∧
    ((s.stop w).1).procs = [] ∧
    (∀ p rest, s.procs = p :: rest → w = ShutdownAttempt.timedOut →
      SupEffect.killProcess p.pid ∈ (s.stop w).2) := by
  rcases s with ⟨cfg, procs, st, ru⟩
  cases procs <;> cases w <;>
    simp [Supervisor.stop]

/-- Witness for C7: a running Supervisor whose process ignores the quit
signal; stop escalates to a kill of that process. -/
theorem stop_always_stops_witness :
    SupEffect.killProcess 7 ∈
      ((Supervisor.mk ⟨true, "core", [], ".", RestartPolicy.never, 5, 5⟩
        [⟨"core", [], ".", 7, none⟩] SupState.running 0).stop
        ShutdownAttempt.timedOut).2 :=
  (stop_always_stops _ ShutdownAttempt.timedOut).2.2
    ⟨"core", [], ".", 7, none⟩ [] rfl rfl
